import Mathlib

/-!
Shallow embedding of the Trendgeist Scoring & Leaderboard Ranking Engine
(src/utils/scoring.js, src/routes/leaderboard.js, src/routes/predictions.js,
database schema in src/unnamed/part_003).

Numbers are modelled exactly: JavaScript numbers become `ℚ` (or `ℤ` for
integer-valued columns and millisecond timestamps), `Math.round(x)` becomes
`⌊x + 1/2⌋` (JS rounds halves toward +∞), and optional fields of the
`resolutionData` / `predictionValue` JSON bags become `Option ℚ`.  JavaScript
truthiness on a numeric field (`!x`, `x && y`) is `numTruthy`: `undefined`
and `0` are falsy.
-/

/-- JS `Math.round`: round half toward positive infinity. -/
def jsRound (q : ℚ) : ℤ := ⌊q + 1/2⌋

/-- JS truthiness of an optional numeric field: `undefined`/missing and `0`
are falsy, every other number is truthy. -/
def numTruthy : Option ℚ → Bool
  | none => false
  | some x => !(x == 0)

/-- JS `String.prototype.toLowerCase()` (ASCII range, as used here). -/
def jsToLower (s : String) : String := String.mk (s.data.map Char.toLower)

/-- The parsed `prediction_value` JSON payload: the fields the evaluators
read (`threshold` for numeric predictions, `rate` for fed-rate ones). -/
structure PredictionValue where
  threshold : Option ℚ
  rate : Option ℚ
deriving DecidableEq, Repr

/-- The `resolutionData` bag supplied by the caller of `scorePrediction`. -/
structure ResolutionData where
  actualValue : Option ℚ
  previousValue : Option ℚ
  actualRate : Option ℚ
deriving DecidableEq, Repr

/-- `resolutionData = {}`: the empty bag the expiry sweeper passes. -/
def emptyResolutionData : ResolutionData :=
  { actualValue := none, previousValue := none, actualRate := none }

/-- `DIFFICULTY_MULTIPLIERS[eventType] || 1.0` from the `ScoringSystem`
constructor. -/
def difficultyMultiplier : String → ℚ
  | "cpi" => 15/10
  | "unemployment" => 13/10
  | "fed_rate" => 2
  | "gdp" => 18/10
  | "payrolls" => 14/10
  | "housing" => 12/10
  | "retail_sales" => 11/10
  | "ppi" => 13/10
  | "custom" => 1
  | _ => 1

/-- `calculateBasePoints(eventType, confidence, isCorrect)`:
`0` if incorrect, else `Math.round(100 * difficultyMultiplier * (1 + confidence * 0.01))`. -/
def calculateBasePoints (eventType : String) (confidence : ℤ) (isCorrect : Bool) : ℤ :=
  if !isCorrect then 0
  else jsRound (100 * difficultyMultiplier eventType * (1 + confidence * (1/100)))

/-- Fueled floor-log₂ on `ℕ` (structural recursion so that the kernel can
evaluate it); `log2Aux f n = Nat.log 2 n` whenever `n ≤ f`. -/
def log2Aux : ℕ → ℕ → ℕ
  | 0, _ => 0
  | f + 1, n => if n < 2 then 0 else log2Aux f (n / 2) + 1

/-- `⌊log₂ n⌋` as an executable function. -/
def floorLog2 (n : ℕ) : ℕ := log2Aux n n

/-- `calculateStreakBonus(currentStreak)`:
`0` if `currentStreak < 2`, else `Math.round(10 * Math.log2(currentStreak))`.
For `s ≥ 2`, `round(10·log₂ s) = ⌊(20·log₂ s + 1)/2⌋ = (⌊log₂ (s²⁰)⌋ + 1)/2`,
which is what this executable form computes; the lemma
`calculateStreakBonus_eq_round` below proves the agreement with the
real-valued formula. -/
def calculateStreakBonus (currentStreak : ℤ) : ℤ :=
  if currentStreak < 2 then 0
  else ((floorLog2 (currentStreak.toNat ^ 20) + 1) / 2 : ℕ)

/-- `calculateTimeBonus(predictionTime, eventTime, basePoints)`: tiered bonus
for predictions made ≥ 7 / ≥ 3 / ≥ 1 days before the event.  Times are
millisecond timestamps (`Date` values). -/
def calculateTimeBonus (predictionTime eventTime : ℤ) (basePoints : ℤ) : ℤ :=
  let timeDifference : ℚ := (eventTime - predictionTime : ℤ)
  let daysDifference : ℚ := timeDifference / (1000 * 60 * 60 * 24)
  if daysDifference ≥ 7 then jsRound (basePoints * (2/10))
  else if daysDifference ≥ 3 then jsRound (basePoints * (1/10))
  else if daysDifference ≥ 1 then jsRound (basePoints * (5/100))
  else 0

/-- `evaluateNumericPrediction(predictedOutcome, predictionValue,
actualOutcome, resolutionData)`: if `!actualValue || !previousValue` fall
back to case-insensitive string equality, else compare
`change = actualValue - previousValue` against
`threshold = predictionValue.threshold || 0` according to the predicted
direction (`switch` on the exact `predictedOutcome` string). -/
def evaluateNumericPrediction (predictedOutcome : String) (predictionValue : PredictionValue)
    (actualOutcome : String) (resolutionData : ResolutionData) : Bool :=
  let threshold : ℚ := match predictionValue.threshold with
    | none => 0
    | some t => if t == 0 then 0 else t
  if !(numTruthy resolutionData.actualValue) || !(numTruthy resolutionData.previousValue) then
    jsToLower predictedOutcome == jsToLower actualOutcome
  else
    let actualValue : ℚ := (resolutionData.actualValue).getD 0
    let previousValue : ℚ := (resolutionData.previousValue).getD 0
    let change : ℚ := actualValue - previousValue
    if predictedOutcome == "higher" then change > threshold
    else if predictedOutcome == "lower" then change < -threshold
    else if predictedOutcome == "same" then |change| ≤ threshold
    else false

/-- `evaluateFedRatePrediction`: if both `predictionValue.rate` and
`resolutionData.actualRate` are truthy, correct iff
`|predictedRate - actualRate| ≤ 0.125`; else fall back to case-insensitive
string equality. -/
def evaluateFedRatePrediction (predictedOutcome : String) (predictionValue : PredictionValue)
    (actualOutcome : String) (resolutionData : ResolutionData) : Bool :=
  if numTruthy predictionValue.rate && numTruthy resolutionData.actualRate then
    |(predictionValue.rate).getD 0 - (resolutionData.actualRate).getD 0| ≤ 125/1000
  else
    jsToLower predictedOutcome == jsToLower actualOutcome

instance {ε α : Type} [DecidableEq ε] [DecidableEq α] : DecidableEq (Except ε α) :=
  fun a b =>
    match a, b with
    | .ok x, .ok y => if h : x = y then .isTrue (by rw [h]) else .isFalse (by simp [h])
    | .error e, .error f => if h : e = f then .isTrue (by rw [h]) else .isFalse (by simp [h])
    | .ok _, .error _ => .isFalse (by simp)
    | .error _, .ok _ => .isFalse (by simp)

/-- A row of the `users` table, restricted to the columns the engine reads
and writes (`src/unnamed/part_003` schema). -/
structure User where
  id : ℕ
  totalPoints : ℤ
  winStreak : ℤ
  totalPredictions : ℤ
  correctPredictions : ℤ
  isActive : Bool
  createdAt : ℤ
deriving DecidableEq, Repr

/-- A row of the `predictions` table.  `predictionValue = none` models a
`prediction_value` blob that `JSON.parse` rejects. -/
structure Prediction where
  id : ℕ
  userId : ℕ
  eventType : String
  predictedOutcome : String
  predictionValue : Option PredictionValue
  confidence : ℤ
  createdAt : ℤ
  expiresAt : ℤ
  isResolved : Bool
  actualOutcome : Option String
  pointsAwarded : ℤ
  resolutionDate : Option ℤ
deriving DecidableEq, Repr

/-- A row of the `leaderboard` table (`UNIQUE(user_id, category)`). -/
structure LeaderboardRow where
  userId : ℕ
  points : ℤ
  rank : ℕ
  category : String
  totalPredictions : ℤ
  accuracyPercentage : ℚ
  updatedAt : ℤ
deriving DecidableEq, Repr

/-- The relational store the engine runs against. -/
structure Store where
  predictions : List Prediction
  users : List User
  leaderboard : List LeaderboardRow
deriving DecidableEq, Repr

/-- The value returned by `scorePrediction` (its `breakdown` is flattened;
the source computes `breakdown.streakBonus` as
`totalPoints - basePoints - timeBonus`). -/
structure ResolutionResult where
  predictionId : ℕ
  isCorrect : Bool
  pointsAwarded : ℤ
  basePoints : ℤ
  timeBonus : ℤ
  streakBonus : ℤ
  newStreak : ℤ
deriving DecidableEq, Repr

/-- `evaluatePrediction(prediction, actualOutcome, resolutionData)`:
`JSON.parse` the stored payload (an unparseable blob throws), then dispatch
on `event_type`; unknown types use case-insensitive string equality. -/
def evaluatePrediction (p : Prediction) (actualOutcome : String)
    (resolutionData : ResolutionData) : Except String Bool :=
  match p.predictionValue with
  | none => .error ("Unexpected token in JSON")
  | some predictionValue =>
    .ok (if p.eventType == "cpi" then
        evaluateNumericPrediction p.predictedOutcome predictionValue actualOutcome resolutionData
      else if p.eventType == "unemployment" then
        evaluateNumericPrediction p.predictedOutcome predictionValue actualOutcome resolutionData
      else if p.eventType == "fed_rate" then
        evaluateFedRatePrediction p.predictedOutcome predictionValue actualOutcome resolutionData
      else if p.eventType == "gdp" then
        evaluateNumericPrediction p.predictedOutcome predictionValue actualOutcome resolutionData
      else jsToLower p.predictedOutcome == jsToLower actualOutcome)

/-- Sort key of `recalculateRanks`:
`ROW_NUMBER() OVER (ORDER BY points DESC, updated_at ASC)`. -/
def rankKeyLe (a b : LeaderboardRow) : Prop :=
  b.points < a.points ∨ (a.points = b.points ∧ a.updatedAt ≤ b.updatedAt)

instance : DecidableRel rankKeyLe := fun a b => by
  unfold rankKeyLe; infer_instance

instance : IsTotal LeaderboardRow rankKeyLe := by
  constructor; intro a b; unfold rankKeyLe; omega

instance : IsTrans LeaderboardRow rankKeyLe := by
  constructor; intro a b c hab hbc; unfold rankKeyLe at *; omega

/-- Attach 1-based consecutive positions, as `ROW_NUMBER()` does over an
already-ordered row set. -/
def withPositions {α : Type} : ℕ → List α → List (ℕ × α)
  | _, [] => []
  | n, a :: rest => (n, a) :: withPositions (n + 1) rest

/-- The `ranked` subquery of `recalculateRanks`: the category's rows in
`(points DESC, updated_at ASC)` order, with `ROW_NUMBER()` positions. -/
def rankedSnapshot (category : String) (rows : List LeaderboardRow) :
    List (ℕ × LeaderboardRow) :=
  withPositions 1 (List.insertionSort rankKeyLe
    (rows.filter (fun r => r.category == category)))

/-- `recalculateRanks(client, category)`: write each category row's
`ROW_NUMBER()` position back into its `rank` column. -/
def recalculateRanks (category : String) (rows : List LeaderboardRow) :
    List LeaderboardRow :=
  rows.map (fun r =>
    if r.category == category then
      match (rankedSnapshot category rows).find? (fun pr => pr.2.userId == r.userId) with
      | some pr => { r with rank := pr.1 }
      | none => r
    else r)

/-- SQL `ROUND(x, 2)` on a non-negative `numeric` (half away from zero). -/
def sqlRound2 (q : ℚ) : ℚ := ((⌊q * 100 + 1/2⌋ : ℤ) : ℚ) / 100

/-- The `accuracy_percentage` expression of `updateLeaderboard`. -/
def accuracyPct (u : User) : ℚ :=
  if 0 < u.totalPredictions then
    sqlRound2 ((u.correctPredictions : ℚ) / (u.totalPredictions : ℚ) * 100)
  else 0

/-- The `INSERT ... ON CONFLICT (user_id, category) DO UPDATE` of
`updateLeaderboard`: upsert the user's `overall` row from the current user
totals (`rank` is written as 0 on insert and left unchanged on conflict). -/
def upsertOverallRow (rows : List LeaderboardRow) (u : User) (now : ℤ) :
    List LeaderboardRow :=
  if rows.any (fun r => r.userId == u.id && r.category == "overall") then
    rows.map (fun r =>
      if r.userId == u.id && r.category == "overall" then
        { r with points := u.totalPoints, totalPredictions := u.totalPredictions,
                 accuracyPercentage := accuracyPct u, updatedAt := now }
      else r)
  else
    rows ++ [{ userId := u.id, points := u.totalPoints, rank := 0,
               category := "overall", totalPredictions := u.totalPredictions,
               accuracyPercentage := accuracyPct u, updatedAt := now }]

/-- `updateLeaderboard(client, userId, pointsAwarded)`: upsert the `overall`
row from the (already updated) user totals, then recalculate the `overall`
ranks. -/
def updateLeaderboard (st : Store) (userId : ℕ) (now : ℤ) : Store :=
  match st.users.find? (fun u => u.id == userId) with
  | none => st
  | some u =>
    { st with leaderboard := recalculateRanks "overall" (upsertOverallRow st.leaderboard u now) }

/-- `scorePrediction(predictionId, actualOutcome, resolutionData)`: the
resolution transaction.  Reads the prediction joined with its user (no
`is_resolved` filter), evaluates, computes points, writes the prediction row
(`is_resolved = true`, `resolution_date = now`), updates the user's totals
and streak, and refreshes the `overall` leaderboard.  A thrown error rolls
the transaction back (`.error`, store unchanged). -/
def scorePrediction (st : Store) (predictionId : ℕ) (actualOutcome : String)
    (resolutionData : ResolutionData) (now : ℤ) :
    Except String (Store × ResolutionResult) :=
  match st.predictions.find? (fun p => p.id == predictionId) with
  | none => .error ("Prediction not found")
  | some p =>
    match st.users.find? (fun u => u.id == p.userId) with
    | none => .error ("Prediction not found")
    | some u =>
      match evaluatePrediction p actualOutcome resolutionData with
      | .error e => .error e
      | .ok isCorrect =>
        let basePoints := calculateBasePoints p.eventType p.confidence isCorrect
        let timeBonus := calculateTimeBonus p.createdAt p.expiresAt basePoints
        let newStreak : ℤ := if isCorrect then u.winStreak + 1 else 0
        let streakBonus : ℤ := if isCorrect then calculateStreakBonus (u.winStreak + 1) else 0
        let totalPoints := basePoints + timeBonus + streakBonus
        let predictions := st.predictions.map (fun q =>
          if q.id == predictionId then
            { q with actualOutcome := some actualOutcome, pointsAwarded := totalPoints,
                     isResolved := true, resolutionDate := some now }
          else q)
        let users := st.users.map (fun v =>
          if v.id == p.userId then
            { v with totalPoints := v.totalPoints + totalPoints, winStreak := newStreak,
                     correctPredictions := v.correctPredictions + (if isCorrect then 1 else 0) }
          else v)
        let st1 : Store := { predictions := predictions, users := users, leaderboard := st.leaderboard }
        let st2 := updateLeaderboard st1 p.userId now
        .ok (st2, { predictionId := predictionId, isCorrect := isCorrect,
                    pointsAwarded := totalPoints, basePoints := basePoints,
                    timeBonus := timeBonus,
                    streakBonus := totalPoints - basePoints - timeBonus,
                    newStreak := newStreak })

/-- The expired-forecast selection of `resolveExpiredPredictions`:
`expires_at < NOW() AND is_resolved = false`. -/
def sweepIds (st : Store) (now : ℤ) : List ℕ :=
  (st.predictions.filter (fun p => p.expiresAt < now && !p.isResolved)).map (fun p => p.id)

/-- The `for` loop of `resolveExpiredPredictions`: each id is resolved with
the synthetic outcome `"expired"`; a thrown error propagates immediately
(there is no per-iteration `try`/`catch`), leaving the remaining ids
unprocessed.  Returns the store as mutated by the already-committed
iterations, and the first error if one was thrown. -/
def sweepLoop (now : ℤ) : List ℕ → Store → Store × Option String
  | [], st => (st, none)
  | pid :: rest, st =>
    match scorePrediction st pid "expired" emptyResolutionData now with
    | .ok (st1, _) => sweepLoop now rest st1
    | .error e => (st, some e)

/-- `resolveExpiredPredictions()`: select the expired unresolved forecasts,
resolve each as `"expired"`; on success return their count, otherwise
propagate the first thrown error. -/
def resolveExpiredPredictions (st : Store) (now : ℤ) : Store × Except String ℕ :=
  let ids := sweepIds st now
  match sweepLoop now ids st with
  | (st1, none) => (st1, .ok ids.length)
  | (st1, some e) => (st1, .error e)

/-- The aggregates `getUserAccuracy(userId, eventType)` computes over the
user's resolved predictions (the derived percentage/average formatting is
presentation only and not modelled). -/
structure AccuracyStats where
  totalPredictions : ℕ
  correctPredictions : ℕ
  totalPoints : ℤ
deriving DecidableEq, Repr

/-- `getUserAccuracy`: `COUNT(*)`, `COUNT(CASE WHEN points_awarded > 0 ...)`
and `SUM(points_awarded)` over `user_id = $1 AND is_resolved = true`,
optionally filtered by `event_type`. -/
def getUserAccuracy (st : Store) (userId : ℕ) (eventType : Option String) :
    AccuracyStats :=
  let rows := st.predictions.filter (fun p =>
    p.userId == userId && p.isResolved &&
      (match eventType with | none => true | some et => p.eventType == et))
  { totalPredictions := rows.length,
    correctPredictions := (rows.filter (fun p => 0 < p.pointsAwarded)).length,
    totalPoints := (rows.map (fun p => p.pointsAwarded)).sum }

/-- Sort key of the `overall` leaderboard read path
(`ORDER BY l.points DESC, u.created_at ASC` over the join). -/
def overallKeyLe (a b : LeaderboardRow × User) : Prop :=
  b.1.points < a.1.points ∨ (a.1.points = b.1.points ∧ a.2.createdAt ≤ b.2.createdAt)

instance : DecidableRel overallKeyLe := fun a b => by
  unfold overallKeyLe; infer_instance

instance : IsTotal (LeaderboardRow × User) overallKeyLe := by
  constructor; intro a b; unfold overallKeyLe; omega

instance : IsTrans (LeaderboardRow × User) overallKeyLe := by
  constructor; intro a b c hab hbc; unfold overallKeyLe at *; omega

/-- `FROM leaderboard l JOIN users u ON l.user_id = u.id WHERE
l.category = 'overall' AND u.is_active = true`. -/
def overallJoin (st : Store) : List (LeaderboardRow × User) :=
  st.leaderboard.filterMap (fun l =>
    if l.category == "overall" then
      match st.users.find? (fun u => u.id == l.userId) with
      | some u => if u.isActive then some (l, u) else none
      | none => none
    else none)

/-- The full `overall` ranking of `GET /api/leaderboard`: the joined rows in
`(points DESC, created_at ASC)` order with their `ROW_NUMBER()` positions
(pagination slices this list). -/
def overallPositions (st : Store) : List (ℕ × LeaderboardRow × User) :=
  withPositions 1 (List.insertionSort overallKeyLe (overallJoin st))

/-- The `LIMIT $1 OFFSET $2` page of the `overall` leaderboard query. -/
def getLeaderboardPageOverall (st : Store) (page limit : ℕ) :
    List (ℕ × LeaderboardRow × User) :=
  ((overallPositions st).drop ((page - 1) * limit)).take limit

/-- Milliseconds per day (`INTERVAL` arithmetic is modelled on millisecond
timestamps). -/
def msPerDay : ℤ := 86400000

/-- The predictions the weekly/monthly queries join to a user:
`p.user_id = u.id AND p.is_resolved = true AND p.created_at >= NOW() - INTERVAL window`. -/
def windowPreds (preds : List Prediction) (uid : ℕ) (cutoff : ℤ) : List Prediction :=
  preds.filter (fun p => p.userId == uid && p.isResolved && decide (cutoff ≤ p.createdAt))

/-- Sort key of the weekly/monthly queries:
`ORDER BY SUM(p.points_awarded) DESC, MIN(u.created_at) ASC`. -/
def windowKeyLe (a b : User × ℤ) : Prop :=
  b.2 < a.2 ∨ (a.2 = b.2 ∧ a.1.createdAt ≤ b.1.createdAt)

instance : DecidableRel windowKeyLe := fun a b => by
  unfold windowKeyLe; infer_instance

instance : IsTotal (User × ℤ) windowKeyLe := by
  constructor; intro a b; unfold windowKeyLe; omega

instance : IsTrans (User × ℤ) windowKeyLe := by
  constructor; intro a b c hab hbc; unfold windowKeyLe at *; omega

/-- The grouped rows of the weekly/monthly queries before ordering: active
users with their in-window point sum, kept only when
`HAVING SUM(p.points_awarded) > 0`. -/
def windowAgg (st : Store) (cutoff : ℤ) : List (User × ℤ) :=
  (st.users.filter (fun u => u.isActive)).filterMap (fun u =>
    let s := ((windowPreds st.predictions u.id cutoff).map (fun p => p.pointsAwarded)).sum
    if 0 < s then some (u, s) else none)

/-- The ordered, `ROW_NUMBER()`-positioned rows of a time-window
leaderboard. -/
def windowPositions (st : Store) (cutoff : ℤ) : List (ℕ × User × ℤ) :=
  withPositions 1 (List.insertionSort windowKeyLe (windowAgg st cutoff))

/-- `GET /api/leaderboard?category=weekly` (window `7 days`). -/
def weeklyLeaderboard (st : Store) (now : ℤ) : List (ℕ × User × ℤ) :=
  windowPositions st (now - 7 * msPerDay)

/-- `GET /api/leaderboard?category=monthly` (window `30 days`). -/
def monthlyLeaderboard (st : Store) (now : ℤ) : List (ℕ × User × ℤ) :=
  windowPositions st (now - 30 * msPerDay)

/-- Claim-side evaluator for C5, following the claim's words: when
`resolutionData` *supplies* both `actualValue` and `previousValue` (the
fields are present), compute `change = actualValue - previousValue` and
`threshold` from `predictionValue.threshold` (default 0) and compare by
direction; when either value is *missing*, fall back to case-insensitive
string equality. -/
def claimNumericCorrect (predictedOutcome : String) (predictionValue : PredictionValue)
    (actualOutcome : String) (resolutionData : ResolutionData) : Bool :=
  match resolutionData.actualValue, resolutionData.previousValue with
  | some actualValue, some previousValue =>
    let threshold : ℚ := (predictionValue.threshold).getD 0
    let change : ℚ := actualValue - previousValue
    if predictedOutcome == "higher" then change > threshold
    else if predictedOutcome == "lower" then change < -threshold
    else if predictedOutcome == "same" then |change| ≤ threshold
    else false
  | _, _ => jsToLower predictedOutcome == jsToLower actualOutcome

/-- Claim-side evaluator for C8, following the claim's words: with both
`predictionValue.rate` and `resolutionData.actualRate` *present*, correct
iff `|predictedRate - actualRate| ≤ 0.125`; when either rate is *absent*,
fall back to case-insensitive string equality. -/
def claimFedRateCorrect (predictedOutcome : String) (predictionValue : PredictionValue)
    (actualOutcome : String) (resolutionData : ResolutionData) : Bool :=
  match predictionValue.rate, resolutionData.actualRate with
  | some predictedRate, some actualRate => |predictedRate - actualRate| ≤ 125/1000
  | _, _ => jsToLower predictedOutcome == jsToLower actualOutcome

/-- Claim-side window filter for C9, following the claim's words: the
weekly/monthly aggregation counts forecasts *resolved* within the window
(resolution date at or after the cutoff). -/
def claimWindowPreds (preds : List Prediction) (uid : ℕ) (cutoff : ℤ) : List Prediction :=
  preds.filter (fun p => p.userId == uid && p.isResolved &&
    (match p.resolutionDate with
     | none => false
     | some d => decide (cutoff ≤ d)))

/-- Claim-side aggregation for C9: like `windowAgg` but with the
resolution-date window of `claimWindowPreds`. -/
def claimWindowAgg (st : Store) (cutoff : ℤ) : List (User × ℤ) :=
  (st.users.filter (fun u => u.isActive)).filterMap (fun u =>
    let s := ((claimWindowPreds st.predictions u.id cutoff).map (fun p => p.pointsAwarded)).sum
    if 0 < s then some (u, s) else none)

/-- Claim-side consistency property for C3: within every category, ranks
respect `points` descending with ties broken by the earliest user
`createdAt`. -/
def RanksConsistentWithCreatedAt (users : List User) (rows : List LeaderboardRow) : Prop :=
  ∀ r1 ∈ rows, ∀ r2 ∈ rows, ∀ u1 ∈ users, ∀ u2 ∈ users,
    r1.category = r2.category → r1.userId = u1.id → r2.userId = u2.id →
    (r2.points < r1.points ∨ (r1.points = r2.points ∧ u1.createdAt < u2.createdAt)) →
    r1.rank < r2.rank

lemma log2Aux_eq_log : ∀ f n : ℕ, n ≤ f → log2Aux f n = Nat.log 2 n := by
  intro f
  induction f with
  | zero =>
    intro n hn
    have : n = 0 := by omega
    subst this
    simp [log2Aux]
  | succ f ih =>
    intro n hn
    rw [log2Aux]
    by_cases h2 : n < 2
    · rw [if_pos h2, eq_comm, Nat.log_eq_zero_iff]
      left; exact h2
    · rw [if_neg h2]
      have hdiv : n / 2 < n := Nat.div_lt_self (by omega) (by omega)
      rw [ih (n / 2) (by omega), Nat.log_div_base]
      have hpos : 0 < Nat.log 2 n := Nat.log_pos (by omega) (by omega)
      omega

lemma floorLog2_eq_log (n : ℕ) : floorLog2 n = Nat.log 2 n :=
  log2Aux_eq_log n n le_rfl

/-- For streaks ≥ 2, the executable `calculateStreakBonus` agrees with the
source formula `Math.round(10 * Math.log2(currentStreak))` read over the
reals. -/
lemma calculateStreakBonus_eq_round (s : ℤ) (hs : 2 ≤ s) :
    calculateStreakBonus s = ⌊(10 : ℝ) * Real.logb 2 (s : ℝ) + 1/2⌋ := by
  have hnot : ¬ s < 2 := by omega
  have hs0 : (0 : ℤ) ≤ s := by omega
  set n : ℕ := s.toNat with hn
  have hn2 : 2 ≤ n := by omega
  have hsn : (s : ℝ) = (n : ℝ) := by
    rw [hn]
    exact_mod_cast (congrArg (fun z : ℤ => (z : ℝ)) (Int.toNat_of_nonneg hs0)).symm
  set L : ℕ := Nat.log 2 (n ^ 20) with hL
  have hlhs : calculateStreakBonus s = ((L + 1) / 2 : ℕ) := by
    rw [calculateStreakBonus, if_neg hnot, floorLog2_eq_log]
  set x : ℝ := (20 : ℝ) * Real.logb 2 (n : ℝ) with hx
  have hb : ((2 : ℕ) : ℝ) = (2 : ℝ) := by norm_num
  have hxfloor : ⌊x⌋ = (L : ℤ) := by
    have h1 : x = Real.logb 2 (((n ^ 20 : ℕ) : ℝ)) := by
      push_cast
      rw [Real.logb_pow]
      push_cast
      ring
    rw [h1, ← hb, Real.floor_logb_natCast (Nat.cast_nonneg _), Int.log_natCast]
  have hxl : (L : ℝ) ≤ x := by
    have := Int.floor_le x
    rw [hxfloor] at this
    exact_mod_cast this
  have hxu : x < (L : ℝ) + 1 := by
    have := Int.lt_floor_add_one x
    rw [hxfloor] at this
    exact_mod_cast this
  set k : ℤ := ((L : ℤ) + 1) / 2 with hk
  have hk1 : 2 * k ≤ (L : ℤ) + 1 := by omega
  have hk2 : (L : ℤ) + 1 ≤ 2 * k + 1 := by omega
  have hk1R : 2 * (k : ℝ) ≤ (L : ℝ) + 1 := by exact_mod_cast hk1
  have hk2R : (L : ℝ) + 1 ≤ 2 * (k : ℝ) + 1 := by exact_mod_cast hk2
  have hhalf : (10 : ℝ) * Real.logb 2 (n : ℝ) + 1/2 = (x + 1) / 2 := by
    rw [hx]; ring
  have hfl : ⌊(10 : ℝ) * Real.logb 2 (n : ℝ) + 1/2⌋ = k := by
    rw [hhalf, Int.floor_eq_iff]
    constructor
    · linarith
    · linarith
  rw [hlhs, hsn, hfl]
  omega

lemma calculateBasePoints_false (eventType : String) (confidence : ℤ) :
    calculateBasePoints eventType confidence false = 0 := by
  simp [calculateBasePoints]

lemma calculateTimeBonus_of_base_zero (t1 t2 : ℤ) : calculateTimeBonus t1 t2 0 = 0 := by
  unfold calculateTimeBonus jsRound
  dsimp only
  have h : ⌊((0 : ℤ) : ℚ) * (2/10) + 1/2⌋ = 0 := by norm_num
  have h2 : ⌊((0 : ℤ) : ℚ) * (1/10) + 1/2⌋ = 0 := by norm_num
  have h3 : ⌊((0 : ℤ) : ℚ) * (5/100) + 1/2⌋ = 0 := by norm_num
  split
  · exact h
  split
  · exact h2
  split
  · exact h3
  rfl

lemma updateLeaderboard_users (st : Store) (uid : ℕ) (now : ℤ) :
    (updateLeaderboard st uid now).users = st.users := by
  unfold updateLeaderboard
  split <;> rfl

lemma updateLeaderboard_predictions (st : Store) (uid : ℕ) (now : ℤ) :
    (updateLeaderboard st uid now).predictions = st.predictions := by
  unfold updateLeaderboard
  split <;> rfl

lemma calculateStreakBonus_two : calculateStreakBonus 2 = 10 := by decide

/-- C2: for `eventType="cpi"`, `confidence=80` and a correct outcome the base
points are `round(100 × 1.5 × 1.8) = 270`; a prediction 7 days early gets a
time bonus of `round(270 × 0.20) = 54`; `newStreak = 4` gets a streak bonus
of `round(10 × log₂ 4) = 20`; and the total of the three parts is 344. -/
theorem c2_point_formula_exactness :
    calculateBasePoints "cpi" 80 true = 270 ∧
    calculateTimeBonus 0 (7 * msPerDay) 270 = 54 ∧
    calculateStreakBonus 4 = 20 ∧
    calculateStreakBonus 4 = ⌊(10 : ℝ) * Real.logb 2 4 + 1/2⌋ ∧
    calculateBasePoints "cpi" 80 true + calculateTimeBonus 0 (7 * msPerDay) 270 +
      calculateStreakBonus 4 = 344 := by
  have hb : calculateBasePoints "cpi" 80 true = 270 := by
    simp +decide [calculateBasePoints, difficultyMultiplier, jsRound]
    norm_num
  have ht : calculateTimeBonus 0 (7 * msPerDay) 270 = 54 := by
    simp +decide [calculateTimeBonus, msPerDay, jsRound]
    norm_num
  have hs : calculateStreakBonus 4 = 20 := by decide
  have hr : calculateStreakBonus 4 = ⌊(10 : ℝ) * Real.logb 2 4 + 1/2⌋ := by
    have := calculateStreakBonus_eq_round 4 (by norm_num)
    simpa using this
  exact ⟨hb, ht, hs, hr, by rw [hb, ht, hs]; norm_num⟩

/-- C6: any incorrect resolution awards 0 total points (0 base, hence a 0
time bonus) and resets the owner's `winStreak` to 0 regardless of its prior
value. -/
theorem c6_incorrect_resolution_zeros (st : Store) (pid : ℕ) (actualOutcome : String)
    (rd : ResolutionData) (now : ℤ) (p : Prediction) (u : User)
    (hp : st.predictions.find? (fun q => q.id == pid) = some p)
    (hu : st.users.find? (fun v => v.id == p.userId) = some u)
    (he : evaluatePrediction p actualOutcome rd = .ok false) :
    ∃ st2 r, scorePrediction st pid actualOutcome rd now = .ok (st2, r) ∧
      r.isCorrect = false ∧ r.pointsAwarded = 0 ∧ r.newStreak = 0 ∧
      ∀ v ∈ st2.users, v.id = p.userId → v.winStreak = 0 := by
  simp only [scorePrediction, hp, hu, he]
  refine ⟨_, _, rfl, rfl, ?_, ?_, ?_⟩
  · simp [calculateBasePoints_false, calculateTimeBonus_of_base_zero]
  · simp
  · intro v hv hvid
    rw [updateLeaderboard_users] at hv
    rcases List.mem_map.mp hv with ⟨w, hw, hweq⟩
    by_cases hid : w.id == p.userId
    · rw [if_pos hid] at hweq
      rw [← hweq]
      simp
    · rw [if_neg hid] at hweq
      rw [← hweq] at hvid
      simp at hid
      exact absurd hvid hid

/-- A user with a prior 3-win streak, used to instantiate the resolution
theorems on concrete stores. -/
def wUser : User := ⟨1, 0, 3, 0, 0, true, 0⟩

/-- An open `custom` forecast of `wUser` predicting `"yes"`. -/
def wPred : Prediction := ⟨1, 1, "custom", "yes", some ⟨none, none⟩, 50, 0, 0, false, none, 0, none⟩

/-- A one-user, one-forecast store. -/
def wStore : Store := ⟨[wPred], [wUser], []⟩

/-- Witness for C6 at a concrete store: resolving `wPred` (predicted
`"yes"`, prior streak 3) with actual outcome `"no"` awards 0 points and
resets the streak. -/
theorem c6_incorrect_resolution_zeros_witness :
    ∃ st2 r, scorePrediction wStore 1 "no" emptyResolutionData 9 = .ok (st2, r) ∧
      r.isCorrect = false ∧ r.pointsAwarded = 0 ∧ r.newStreak = 0 ∧
      ∀ v ∈ st2.users, v.id = wPred.userId → v.winStreak = 0 :=
  c6_incorrect_resolution_zeros wStore 1 "no" emptyResolutionData 9 wPred wUser
    (by decide) (by decide) (by decide)

/-- With `resolutionData = {}`, every dispatch branch of `evaluatePrediction`
degenerates to the case-insensitive string comparison (no numeric data
accompanies the synthetic outcome). -/
lemma evaluatePrediction_empty_data (p : Prediction) (pv : PredictionValue)
    (hpv : p.predictionValue = some pv) (actualOutcome : String) :
    evaluatePrediction p actualOutcome emptyResolutionData =
      .ok (jsToLower p.predictedOutcome == jsToLower actualOutcome) := by
  unfold evaluatePrediction evaluateNumericPrediction evaluateFedRatePrediction
  rw [hpv]
  simp only [emptyResolutionData, numTruthy, Bool.not_false, Bool.true_or, if_true,
    Bool.and_false, Bool.false_eq_true, if_false]
  split_ifs <;> rfl

/-- C7: the synthetic outcome `"expired"` evaluates as incorrect for every
validated `predicted_outcome` (the creation route restricts it to
yes/no/higher/lower/same/custom), so a swept expired forecast is selected by
the sweep and ends resolved with `actualOutcome="expired"`, 0 points, and a
reset streak. -/
theorem c7_expired_sweep_incorrect (st : Store) (now : ℤ) (p : Prediction) (u : User)
    (pv : PredictionValue)
    (hp : st.predictions.find? (fun q => q.id == p.id) = some p)
    (hu : st.users.find? (fun v => v.id == p.userId) = some u)
    (hpv : p.predictionValue = some pv)
    (hout : p.predictedOutcome ∈ ["yes", "no", "higher", "lower", "same", "custom"])
    (hexp : p.expiresAt < now) (hres : p.isResolved = false) :
    evaluatePrediction p "expired" emptyResolutionData = .ok false ∧
    p.id ∈ sweepIds st now ∧
    ∃ st2 r, scorePrediction st p.id "expired" emptyResolutionData now = .ok (st2, r) ∧
      r.isCorrect = false ∧ r.pointsAwarded = 0 ∧ r.newStreak = 0 ∧
      (∀ q ∈ st2.predictions, q.id = p.id →
        q.isResolved = true ∧ q.actualOutcome = some "expired" ∧ q.pointsAwarded = 0) ∧
      (∀ v ∈ st2.users, v.id = p.userId → v.winStreak = 0) := by
  have heval : evaluatePrediction p "expired" emptyResolutionData = .ok false := by
    rw [evaluatePrediction_empty_data p pv hpv]
    simp only [List.mem_cons, List.not_mem_nil, or_false] at hout
    rcases hout with h | h | h | h | h | h <;> rw [h] <;> decide
  refine ⟨heval, ?_, ?_⟩
  · have hmem : p ∈ st.predictions := List.mem_of_find?_eq_some hp
    unfold sweepIds
    exact List.mem_map.mpr ⟨p, List.mem_filter.mpr ⟨hmem, by simp [hexp, hres]⟩, rfl⟩
  · simp only [scorePrediction, hp, hu, heval]
    refine ⟨_, _, rfl, rfl, ?_, ?_, ?_, ?_⟩
    · simp [calculateBasePoints_false, calculateTimeBonus_of_base_zero]
    · simp
    · intro q hq hqid
      rw [updateLeaderboard_predictions] at hq
      rcases List.mem_map.mp hq with ⟨w, hw, hweq⟩
      by_cases hid : w.id == p.id
      · rw [if_pos hid] at hweq
        rw [← hweq]
        refine ⟨rfl, rfl, ?_⟩
        simp [calculateBasePoints_false, calculateTimeBonus_of_base_zero]
      · rw [if_neg hid] at hweq
        rw [← hweq] at hqid
        simp at hid
        exact absurd hqid hid
    · intro v hv hvid
      rw [updateLeaderboard_users] at hv
      rcases List.mem_map.mp hv with ⟨w, hw, hweq⟩
      by_cases hid : w.id == p.userId
      · rw [if_pos hid] at hweq
        rw [← hweq]
        simp
      · rw [if_neg hid] at hweq
        rw [← hweq] at hvid
        simp at hid
        exact absurd hvid hid

/-- An expired, unresolved `cpi` forecast used to instantiate the sweep
theorems. -/
def wExpiredPred : Prediction := ⟨2, 1, "cpi", "higher", some ⟨none, none⟩, 80, 0, 10, false, none, 0, none⟩

/-- A store whose only forecast is expired and unresolved at `now = 100`. -/
def wExpiredStore : Store := ⟨[wExpiredPred], [wUser], []⟩

/-- Witness for C7 at a concrete store: the expired forecast is selected and
resolved as incorrect with `"expired"`, 0 points, streak reset. -/
theorem c7_expired_sweep_incorrect_witness :
    evaluatePrediction wExpiredPred "expired" emptyResolutionData = .ok false ∧
    wExpiredPred.id ∈ sweepIds wExpiredStore 100 ∧
    ∃ st2 r, scorePrediction wExpiredStore wExpiredPred.id "expired" emptyResolutionData 100 = .ok (st2, r) ∧
      r.isCorrect = false ∧ r.pointsAwarded = 0 ∧ r.newStreak = 0 ∧
      (∀ q ∈ st2.predictions, q.id = wExpiredPred.id →
        q.isResolved = true ∧ q.actualOutcome = some "expired" ∧ q.pointsAwarded = 0) ∧
      (∀ v ∈ st2.users, v.id = wExpiredPred.userId → v.winStreak = 0) :=
  c7_expired_sweep_incorrect wExpiredStore 100 wExpiredPred wUser ⟨none, none⟩
    (by decide) (by decide) (by decide) (by decide) (by decide) (by decide)

lemma one_le_difficultyMultiplier (eventType : String) :
    1 ≤ difficultyMultiplier eventType := by
  unfold difficultyMultiplier
  split <;> norm_num

lemma calculateBasePoints_true_ge (eventType : String) (confidence : ℤ)
    (hc : 0 ≤ confidence) : 100 ≤ calculateBasePoints eventType confidence true := by
  unfold calculateBasePoints jsRound
  simp only [Bool.not_true, Bool.false_eq_true, if_false]
  have hm := one_le_difficultyMultiplier eventType
  have hc' : (0 : ℚ) ≤ (confidence : ℤ) := by exact_mod_cast hc
  have hge : (100 : ℚ) ≤ 100 * difficultyMultiplier eventType * (1 + (confidence : ℤ) * (1/100)) := by
    nlinarith
  have h100 : (100 : ℤ) = ⌊(100 : ℚ) + 1/2⌋ := by norm_num
  rw [h100]
  exact Int.floor_le_floor (by linarith)

lemma calculateTimeBonus_nonneg (t1 t2 b : ℤ) (hb : 0 ≤ b) :
    0 ≤ calculateTimeBonus t1 t2 b := by
  unfold calculateTimeBonus jsRound
  dsimp only
  have hb' : (0 : ℚ) ≤ (b : ℚ) := by exact_mod_cast hb
  split
  · rw [Int.le_floor]; push_cast; nlinarith
  split
  · rw [Int.le_floor]; push_cast; nlinarith
  split
  · rw [Int.le_floor]; push_cast; nlinarith
  exact le_refl 0

lemma calculateStreakBonus_nonneg (s : ℤ) : 0 ≤ calculateStreakBonus s := by
  unfold calculateStreakBonus
  split
  · exact le_refl 0
  · exact Int.natCast_nonneg _

/-- C10: resolved points are positive exactly when the evaluation was
correct: every difficulty multiplier is ≥ 1, so with confidence ≥ 0 (the
route validation and the schema `CHECK` guarantee this) a correct resolution
awards base points ≥ 100 and non-negative bonuses, while an incorrect one
awards 0; hence `getUserAccuracy`'s `points_awarded > 0` count is exactly
the count of correct resolutions. -/
theorem c10_points_positive_iff_correct :
    (∀ eventType, 1 ≤ difficultyMultiplier eventType) ∧
    (∀ eventType confidence, 0 ≤ confidence →
      100 ≤ calculateBasePoints eventType confidence true) ∧
    (∀ eventType confidence, calculateBasePoints eventType confidence false = 0) ∧
    (∀ st pid actualOutcome rd now p u c,
      st.predictions.find? (fun q => q.id == pid) = some p →
      st.users.find? (fun v => v.id == p.userId) = some u →
      0 ≤ p.confidence →
      evaluatePrediction p actualOutcome rd = .ok c →
      ∃ st2 r, scorePrediction st pid actualOutcome rd now = .ok (st2, r) ∧
        r.isCorrect = c ∧ (0 < r.pointsAwarded ↔ c = true)) ∧
    (∀ st uid, (getUserAccuracy st uid none).correctPredictions =
      ((st.predictions.filter (fun p => p.userId == uid && p.isResolved)).filter
        (fun p => 0 < p.pointsAwarded)).length) := by
  refine ⟨one_le_difficultyMultiplier, calculateBasePoints_true_ge,
    calculateBasePoints_false, ?_, ?_⟩
  · intro st pid actualOutcome rd now p u c hp hu hc he
    simp only [scorePrediction, hp, hu, he]
    refine ⟨_, _, rfl, rfl, ?_⟩
    cases c with
    | false =>
      simp [calculateBasePoints_false, calculateTimeBonus_of_base_zero]
    | true =>
      have hb := calculateBasePoints_true_ge p.eventType p.confidence hc
      have ht := calculateTimeBonus_nonneg p.createdAt p.expiresAt _ (by omega : (0:ℤ) ≤ calculateBasePoints p.eventType p.confidence true)
      have hs := calculateStreakBonus_nonneg (u.winStreak + 1)
      simp only [if_true, reduceIte]
      constructor
      · intro _; trivial
      · intro _; omega
  · intro st uid
    simp [getUserAccuracy, Bool.and_true]

/-- Witness for C10 at a concrete store: resolving `wPred` (confidence 50 ≥ 0)
correctly yields a positive award. -/
theorem c10_points_positive_iff_correct_witness :
    (0 : ℤ) ≤ wPred.confidence ∧
    ∃ st2 r, scorePrediction wStore 1 "yes" emptyResolutionData 9 = .ok (st2, r) ∧
      r.isCorrect = true ∧ (0 < r.pointsAwarded ↔ true = true) :=
  ⟨by decide,
   c10_points_positive_iff_correct.2.2.2.1 wStore 1 "yes" emptyResolutionData 9 wPred wUser
     true (by decide) (by decide) (by decide) (by decide)⟩

/-- Collapse a JS-falsy numeric field to `none`: the correction C5/C8 need
(the source treats a supplied `0` exactly like a missing value). -/
def truthyOrNone (v : Option ℚ) : Option ℚ := if numTruthy v then v else none

/-- C5 counterexample: `resolutionData` *supplies* both values
(`actualValue = 0`, `previousValue = 1`), so the claim's formula computes
`change = -1 < -0` and declares `"lower"` correct, but the code treats the
supplied `0` as missing and falls back to string comparison with
`"higher"`, returning incorrect. -/
theorem c5_numeric_zero_value_counterexample :
    claimNumericCorrect "lower" ⟨none, none⟩ "higher" ⟨some 0, some 1, none⟩ = true ∧
    evaluateNumericPrediction "lower" ⟨none, none⟩ "higher" ⟨some 0, some 1, none⟩ = false := by
  constructor
  · simp +decide [claimNumericCorrect]
  · simp +decide [evaluateNumericPrediction, numTruthy]

/-- C5 (amended): the numeric evaluator follows the claimed
change/threshold-vs-fallback rule with "supplies" read as JS truthiness: a
value of `0` (like a missing one) triggers the string-equality fallback;
nonzero supplied values are compared via `change = actualValue -
previousValue` against `threshold = predictionValue.threshold` (default 0). -/
theorem c5_numeric_eval_amended (predictedOutcome : String) (predictionValue : PredictionValue)
    (actualOutcome : String) (rd : ResolutionData) :
    evaluateNumericPrediction predictedOutcome predictionValue actualOutcome rd =
      claimNumericCorrect predictedOutcome predictionValue actualOutcome
        ⟨truthyOrNone rd.actualValue, truthyOrNone rd.previousValue, rd.actualRate⟩ := by
  rcases rd with ⟨av, prev, ar⟩
  unfold evaluateNumericPrediction claimNumericCorrect truthyOrNone
  dsimp only
  rcases av with _ | x
  · simp [numTruthy]
  · rcases prev with _ | y
    · simp [numTruthy]
    · by_cases hx : x == 0
      · simp [numTruthy, hx]
      · by_cases hy : y == 0
        · simp [numTruthy, hx, hy]
        · rcases predictionValue.threshold with _ | t
          · simp [numTruthy, hx, hy]
          · by_cases ht : t = 0
            · simp [numTruthy, hx, hy, ht]
            · simp [numTruthy, hx, hy, ht]

/-- C8 counterexample: both rates are *present* (`predictedRate = 0.1`,
`actualRate = 0`) and differ by 0.1 ≤ 0.125, so the claim declares the
forecast correct, but the code treats the supplied `0` rate as absent and
falls back to string comparison (`"hold"` vs `"cut"`), returning
incorrect. -/
theorem c8_fed_rate_zero_counterexample :
    claimFedRateCorrect "hold" ⟨none, some (1/10)⟩ "cut" ⟨none, none, some 0⟩ = true ∧
    evaluateFedRatePrediction "hold" ⟨none, some (1/10)⟩ "cut" ⟨none, none, some 0⟩ = false := by
  constructor
  · simp +decide [claimFedRateCorrect]
    norm_num [abs_le]
  · simp +decide [evaluateFedRatePrediction, numTruthy]

/-- C8 (amended): the fed-rate evaluator follows the claimed
0.125-tolerance-vs-fallback rule with "present" read as JS truthiness (a
supplied rate of `0` triggers the fallback); at the claim's own instances,
`predictedRate = 5.25` with `actualRate = 5.30` is correct and with
`actualRate = 5.40` is incorrect. -/
theorem c8_fed_rate_eval_amended :
    (∀ (predictedOutcome : String) (predictionValue : PredictionValue)
        (actualOutcome : String) (rd : ResolutionData),
      evaluateFedRatePrediction predictedOutcome predictionValue actualOutcome rd =
        claimFedRateCorrect predictedOutcome
          ⟨predictionValue.threshold, truthyOrNone predictionValue.rate⟩ actualOutcome
          ⟨rd.actualValue, rd.previousValue, truthyOrNone rd.actualRate⟩) ∧
    evaluateFedRatePrediction "hold" ⟨none, some (525/100)⟩ "cut"
      ⟨none, none, some (530/100)⟩ = true ∧
    evaluateFedRatePrediction "hold" ⟨none, some (525/100)⟩ "cut"
      ⟨none, none, some (540/100)⟩ = false := by
  refine ⟨?_, ?_, ?_⟩
  · intro predictedOutcome predictionValue actualOutcome rd
    rcases rd with ⟨av, prev, ar⟩
    unfold evaluateFedRatePrediction claimFedRateCorrect truthyOrNone
    dsimp only
    rcases hr : predictionValue.rate with _ | x
    · simp [numTruthy]
    · rcases ar with _ | y
      · simp [numTruthy, Bool.and_false]
      · by_cases hx : x == 0
        · simp [numTruthy, hx]
        · by_cases hy : y == 0
          · simp [numTruthy, hx, hy]
          · simp [numTruthy, hx, hy]
  · simp +decide [evaluateFedRatePrediction, numTruthy]
    norm_num [abs_le]
  · simp +decide [evaluateFedRatePrediction, numTruthy]
    norm_num [lt_abs]

lemma withPositions_map_fst {α : Type} : ∀ (n : ℕ) (l : List α),
    (withPositions n l).map Prod.fst = List.range' n l.length := by
  intro n l
  induction l generalizing n with
  | nil => rfl
  | cons a as ih =>
    simp only [withPositions, List.map_cons, List.length_cons, List.range'_succ, ih]

lemma withPositions_map_snd {α : Type} : ∀ (n : ℕ) (l : List α),
    (withPositions n l).map Prod.snd = l := by
  intro n l
  induction l generalizing n with
  | nil => rfl
  | cons a as ih => simp only [withPositions, List.map_cons, ih]

instance (users : List User) (rows : List LeaderboardRow) :
    Decidable (RanksConsistentWithCreatedAt users rows) := by
  unfold RanksConsistentWithCreatedAt
  infer_instance

/-- Two active users with equal points: user 1 was created first
(`created_at` 0 vs 5), but user 1's leaderboard row was touched last
(`updated_at` 10 vs 1). -/
def c3UserA : User := ⟨1, 0, 0, 0, 0, true, 0⟩

/-- See `c3UserA`. -/
def c3UserB : User := ⟨2, 0, 0, 0, 0, true, 5⟩

/-- `overall` row of user 1: 50 points, `updated_at` 10. -/
def c3RowA : LeaderboardRow := ⟨1, 50, 0, "overall", 0, 0, 10⟩

/-- `overall` row of user 2: 50 points, `updated_at` 1. -/
def c3RowB : LeaderboardRow := ⟨2, 50, 0, "overall", 0, 0, 1⟩

/-- C3 counterexample: `recalculateRanks` breaks the points tie by
`updated_at ASC`, so the user with the *earlier* `created_at` (user 1)
receives rank 2 while user 2 receives rank 1 — the persisted ranking is not
consistent with the claimed `createdAt` tie-break. -/
theorem c3_rank_tiebreak_counterexample :
    ¬ RanksConsistentWithCreatedAt [c3UserA, c3UserB]
        (recalculateRanks "overall" [c3RowA, c3RowB]) := by decide

/-- C3 (amended): every category snapshot gets dense 1-based ranks — the
i-th row in sorted order gets rank i, the rank sequence is exactly
`1..N` (strictly increasing, no duplicates) — and the read-path `overall`
ordering is sorted by points descending with ties broken by earliest user
`createdAt`; the persisted rank column written by `recalculateRanks`,
however, orders ties by earliest leaderboard `updated_at`, not by user
`createdAt` (see the counterexample). -/
theorem c3_dense_ranking_amended :
    (∀ category rows,
      (rankedSnapshot category rows).map Prod.fst =
        List.range' 1 (rows.filter (fun r => r.category == category)).length ∧
      ((rankedSnapshot category rows).map Prod.fst).Nodup ∧
      List.Sorted rankKeyLe
        (List.insertionSort rankKeyLe (rows.filter (fun r => r.category == category)))) ∧
    (∀ st,
      (overallPositions st).map Prod.fst = List.range' 1 (overallJoin st).length ∧
      ((overallPositions st).map Prod.fst).Nodup ∧
      List.Sorted overallKeyLe (List.insertionSort overallKeyLe (overallJoin st))) := by
  constructor
  · intro category rows
    refine ⟨?_, ?_, List.sorted_insertionSort rankKeyLe _⟩
    · rw [rankedSnapshot, withPositions_map_fst, List.length_insertionSort]
    · rw [rankedSnapshot, withPositions_map_fst]
      exact List.nodup_range' _ _
  · intro st
    refine ⟨?_, ?_, List.sorted_insertionSort overallKeyLe _⟩
    · rw [overallPositions, withPositions_map_fst, List.length_insertionSort]
    · rw [overallPositions, withPositions_map_fst]
      exact List.nodup_range' _ _

lemma sum_pos_iff_exists_pos : ∀ (l : List ℤ), (∀ x ∈ l, 0 ≤ x) →
    (0 < l.sum ↔ ∃ x ∈ l, 0 < x) := by
  intro l
  induction l with
  | nil => simp
  | cons a as ih =>
    intro h
    have ha : 0 ≤ a := h a (List.mem_cons_self a as)
    have has : ∀ x ∈ as, 0 ≤ x := fun x hx => h x (List.mem_cons_of_mem a hx)
    have hsum : 0 ≤ as.sum := List.sum_nonneg has
    rw [List.sum_cons]
    constructor
    · intro hpos
      by_cases h0 : 0 < a
      · exact ⟨a, List.mem_cons_self a as, h0⟩
      · rcases (ih has).mp (by omega) with ⟨x, hx, hx0⟩
        exact ⟨x, List.mem_cons_of_mem a hx, hx0⟩
    · rintro ⟨x, hx, hx0⟩
      rcases List.mem_cons.mp hx with rfl | hx
      · omega
      · have : 0 < as.sum := (ih has).mpr ⟨x, hx, hx0⟩
        omega

/-- An active user for the time-window fixtures. -/
def c9User : User := ⟨1, 0, 0, 0, 0, true, 0⟩

/-- A forecast *created* at time 0 but *resolved* at day 9 (ms timestamps),
carrying a positive award. -/
def c9Pred : Prediction :=
  ⟨1, 1, "custom", "yes", some ⟨none, none⟩, 50, 0, 8 * 86400000, true,
   some "yes", 100, some (9 * 86400000)⟩

/-- Store for the C9 counterexample. -/
def c9Store : Store := ⟨[c9Pred], [c9User], []⟩

/-- C9 counterexample: at `now` = day 10 the weekly window cutoff is day 3;
`c9Pred` was resolved on day 9 (inside the window), so the claim's
resolution-date aggregation lists its user with 100 points — but the code
filters on `created_at` (day 0, outside the window), so the weekly
leaderboard is empty. -/
theorem c9_resolution_window_counterexample :
    weeklyLeaderboard c9Store (10 * 86400000) = [] ∧
    claimWindowAgg c9Store (10 * 86400000 - 7 * msPerDay) = [(c9User, 100)] := by decide

/-- C9 (amended): the weekly/monthly aggregation windows filter on the
forecast's *creation* time (`created_at ≥ now - 7/30 days`), not its
resolution date; a user appears exactly when active with a positive
in-window point sum, and — since awards are non-negative — that is exactly
when some resolved in-window forecast carries positive points. -/
theorem c9_window_aggregation_amended :
    (∀ preds uid cutoff p, p ∈ windowPreds preds uid cutoff ↔
      (p ∈ preds ∧ p.userId = uid ∧ p.isResolved = true ∧ cutoff ≤ p.createdAt)) ∧
    (∀ st cutoff u s, (u, s) ∈ windowAgg st cutoff ↔
      (u ∈ st.users ∧ u.isActive = true ∧
       s = ((windowPreds st.predictions u.id cutoff).map (fun p => p.pointsAwarded)).sum ∧
       0 < s)) ∧
    (∀ st now, ((weeklyLeaderboard st now).map Prod.snd).Perm (windowAgg st (now - 7 * msPerDay)) ∧
               ((monthlyLeaderboard st now).map Prod.snd).Perm (windowAgg st (now - 30 * msPerDay))) ∧
    (∀ preds uid cutoff, (∀ p ∈ preds, 0 ≤ p.pointsAwarded) →
      (0 < ((windowPreds preds uid cutoff).map (fun p => p.pointsAwarded)).sum ↔
       ∃ p ∈ windowPreds preds uid cutoff, 0 < p.pointsAwarded)) := by
  refine ⟨?_, ?_, ?_, ?_⟩
  · intro preds uid cutoff p
    simp only [windowPreds, List.mem_filter, Bool.and_eq_true, beq_iff_eq,
      decide_eq_true_eq]
    tauto
  · intro st cutoff u s
    constructor
    · intro hm
      rcases List.mem_filterMap.mp hm with ⟨a, ha, hfa⟩
      rcases List.mem_filter.mp ha with ⟨hau, hact⟩
      dsimp only at hfa
      by_cases h0 : 0 < ((windowPreds st.predictions a.id cutoff).map (fun p => p.pointsAwarded)).sum
      · rw [if_pos h0] at hfa
        simp only [Option.some.injEq, Prod.mk.injEq] at hfa
        obtain ⟨rfl, hs'⟩ := hfa
        exact ⟨hau, hact, hs'.symm, hs' ▸ h0⟩
      · rw [if_neg h0] at hfa
        exact absurd hfa (by simp)
    · rintro ⟨hu, hact, hs, h0⟩
      apply List.mem_filterMap.mpr
      refine ⟨u, List.mem_filter.mpr ⟨hu, hact⟩, ?_⟩
      dsimp only
      rw [if_pos (hs ▸ h0), hs]
  · intro st now
    constructor
    · rw [weeklyLeaderboard, windowPositions, withPositions_map_snd]
      exact List.perm_insertionSort windowKeyLe _
    · rw [monthlyLeaderboard, windowPositions, withPositions_map_snd]
      exact List.perm_insertionSort windowKeyLe _
  · intro preds uid cutoff hnn
    apply sum_pos_iff_exists_pos ((windowPreds preds uid cutoff).map (fun p => p.pointsAwarded)) ?_ |>.trans ?_
    · intro x hx
      rcases List.mem_map.mp hx with ⟨p, hp, rfl⟩
      exact hnn p (List.mem_of_mem_filter hp)
    · constructor
      · rintro ⟨x, hx, hx0⟩
        rcases List.mem_map.mp hx with ⟨p, hp, rfl⟩
        exact ⟨p, hp, hx0⟩
      · rintro ⟨p, hp, hp0⟩
        exact ⟨p.pointsAwarded, List.mem_map.mpr ⟨p, hp, rfl⟩, hp0⟩

/-- Witness for C9 at a concrete store: with the single resolved, in-window,
100-point forecast of `c9Store`, the window sum is positive iff some
in-window forecast has positive points. -/
theorem c9_window_aggregation_amended_witness :
    (∀ p ∈ c9Store.predictions, (0 : ℤ) ≤ p.pointsAwarded) ∧
    (0 < ((windowPreds c9Store.predictions 1 0).map (fun p => p.pointsAwarded)).sum ↔
     ∃ p ∈ windowPreds c9Store.predictions 1 0, 0 < p.pointsAwarded) :=
  ⟨by decide, c9_window_aggregation_amended.2.2.2 c9Store.predictions 1 0 (by decide)⟩

/-- A fresh user (no points, no streak). -/
def c1User : User := ⟨1, 0, 0, 0, 0, true, 0⟩

/-- An open `custom` forecast predicting `"yes"` with confidence 0. -/
def c1Pred : Prediction := ⟨1, 1, "custom", "yes", some ⟨none, none⟩, 0, 0, 0, false, none, 0, none⟩

/-- Initial store for the double-resolution run. -/
def c1St0 : Store := ⟨[c1Pred], [c1User], []⟩

/-- The forecast after the first resolution: resolved, 100 points. -/
def c1Pred1 : Prediction := ⟨1, 1, "custom", "yes", some ⟨none, none⟩, 0, 0, 0, true, some "yes", 100, some 5⟩

/-- The user after the first resolution. -/
def c1User1 : User := ⟨1, 100, 1, 0, 1, true, 0⟩

/-- The `overall` row after the first resolution. -/
def c1Row1 : LeaderboardRow := ⟨1, 100, 1, "overall", 0, 0, 5⟩

/-- The store after the first resolution. -/
def c1St1 : Store := ⟨[c1Pred1], [c1User1], [c1Row1]⟩

/-- The first resolution's result: one 100-point award. -/
def c1R1 : ResolutionResult := ⟨1, true, 100, 100, 0, 0, 1⟩

/-- The forecast after the second resolution of the same id. -/
def c1Pred2 : Prediction := ⟨1, 1, "custom", "yes", some ⟨none, none⟩, 0, 0, 0, true, some "yes", 110, some 6⟩

/-- The user after the second resolution: points doubled up to 210. -/
def c1User2 : User := ⟨1, 210, 2, 0, 2, true, 0⟩

/-- The `overall` row after the second resolution. -/
def c1Row2 : LeaderboardRow := ⟨1, 210, 1, "overall", 0, 0, 6⟩

/-- The store after the second resolution. -/
def c1St2 : Store := ⟨[c1Pred2], [c1User2], [c1Row2]⟩

/-- The second resolution's result: a further 110-point award (100 base +
streak bonus 10 at streak 2). -/
def c1R2 : ResolutionResult := ⟨1, true, 110, 100, 0, 10, 2⟩

/-- C1 bug evaluation: `scorePrediction` reads the forecast without any
`is_resolved` guard, so resolving the same id twice *succeeds twice* — no
`AlreadyResolved` failure — and the already-resolved forecast is re-scored:
after the two calls the user holds 210 points (100 + 110), two awards
instead of exactly one. -/
theorem c1_double_resolution_double_award :
    scorePrediction (⟨[], [], []⟩ : Store) 1 "yes" emptyResolutionData 5 =
      .error "Prediction not found" ∧
    scorePrediction c1St0 1 "yes" emptyResolutionData 5 = .ok (c1St1, c1R1) ∧
    c1Pred1.isResolved = true ∧
    scorePrediction c1St1 1 "yes" emptyResolutionData 6 = .ok (c1St2, c1R2) ∧
    c1R1.pointsAwarded = 100 ∧ c1R2.pointsAwarded = 110 ∧
    c1User2.totalPoints = 210 := by
  refine ⟨by decide, ?_, rfl, ?_, rfl, rfl, rfl⟩
  · simp +decide [scorePrediction, evaluatePrediction, jsToLower, calculateBasePoints,
      calculateTimeBonus, calculateStreakBonus, difficultyMultiplier, jsRound,
      updateLeaderboard, upsertOverallRow, recalculateRanks, rankedSnapshot,
      withPositions, accuracyPct, List.insertionSort, List.orderedInsert,
      c1St0, c1Pred, c1User, c1St1, c1Pred1, c1User1, c1Row1, c1R1, emptyResolutionData]
    norm_num
  · simp +decide [scorePrediction, evaluatePrediction, jsToLower, calculateBasePoints,
      calculateTimeBonus, calculateStreakBonus_two, difficultyMultiplier, jsRound,
      updateLeaderboard, upsertOverallRow, recalculateRanks, rankedSnapshot,
      withPositions, accuracyPct, List.insertionSort, List.orderedInsert,
      c1St1, c1Pred1, c1User1, c1Row1, c1St2, c1Pred2, c1User2, c1Row2, c1R2,
      emptyResolutionData]
    norm_num

/-- An expired forecast whose stored `prediction_value` blob does not parse
(`JSON.parse` throws on it). -/
def c4BadPred : Prediction := ⟨1, 1, "custom", "yes", none, 0, 0, 0, false, none, 0, none⟩

/-- A second, well-formed expired forecast behind the bad one. -/
def c4GoodPred : Prediction := ⟨2, 1, "custom", "yes", some ⟨none, none⟩, 0, 0, 0, false, none, 0, none⟩

/-- Store with two expired unresolved forecasts; the bad one comes first. -/
def c4Store : Store := ⟨[c4BadPred, c4GoodPred], [c1User], []⟩

/-- C4 bug evaluation: the sweep selects both expired forecasts, but its
`for` loop has no per-forecast `try`/`catch`, so the error thrown while
scoring the first forecast propagates out of `resolveExpiredPredictions`:
the sweep reports the error instead of a summary, and the second (perfectly
resolvable) forecast is left unresolved. -/
theorem c4_sweep_aborts_on_first_failure :
    sweepIds c4Store 5 = [1, 2] ∧
    resolveExpiredPredictions c4Store 5 = (c4Store, .error "Unexpected token in JSON") ∧
    ∀ p ∈ (resolveExpiredPredictions c4Store 5).1.predictions, p.isResolved = false := by
  exact ⟨by decide, by decide, by decide⟩
